import Mathlib

/-!
Verification of the AirtablePy client library core: identifier validation,
record-codec chunking, URL construction, pagination, deletion URL handling,
and the query/formula builder.  Definitions are shallow embeddings of the
Python source in `AirtablePy/api.py` and `AirtablePy/utils.py`; the query
module is modelled from the specification where noted.
-/

/-- A scalar Python value (string, integer, or boolean): the element type of
column sequences in tabular uploads. -/
inductive Scalar where
  | str : String → Scalar
  | int : Int → Scalar
  | bool : Bool → Scalar
deriving DecidableEq, Repr

/-- A Python runtime value as the library manipulates it: strings, integers,
booleans, and lists of scalars (column sequences).  Non-string constructors
let us model `isinstance(key, str)` checks faithfully. -/
inductive PyV where
  | s : String → PyV
  | i : Int → PyV
  | b : Bool → PyV
  | seq : List Scalar → PyV
deriving DecidableEq, Repr

deriving instance DecidableEq for Except

/-- Model of Python `str.startswith(pfx)`. -/
def startswith (s pfx : String) : Bool :=
  List.isPrefixOf pfx.toList s.toList

/-- Model of Python `str.endswith(suffix)`. -/
def endswith (s sfx : String) : Bool :=
  List.isSuffixOf sfx.toList s.toList

/-- The `_VALID_KEY_PREFIX` table of `AirtablePy/utils.py`: maps a key kind to
its required 3-character identifier beginning; `none` models a `KeyError` on
lookup of an unrecognized kind. -/
def VALID_KEY_PFX (key_type : String) : Option String :=
  if key_type = "API Key" then some "key"
  else if key_type = "Base ID" then some "app"
  else if key_type = "Record ID" then some "rec"
  else none

/-- The distinct `ValueError` branches of `utils.check_key`; Python raises
`ValueError` in each case, here distinguished for precision. -/
inductive KeyErr where
  | notString
  | badLength
  | unsupportedKeyType
  | badPrefix
deriving DecidableEq, Repr

/-- Model of `utils.check_key(key, key_type)`: requires a string of exactly 17
characters whose beginning matches the recognized kind's required prefix;
raises `ValueError` (modelled as `.error`) otherwise.  Checks run in source
order: string-ness, length, kind lookup, then the beginning of the string. -/
def check_key (key : PyV) (key_type : String) : Except KeyErr Unit :=
  match key with
  | .s k =>
    if k.length ≠ 17 then .error .badLength
    else
      match VALID_KEY_PFX key_type with
      | none => .error .unsupportedKeyType
      | some pfx => if startswith k pfx then .ok () else .error .badPrefix
  | _ => .error .notString

/-- A decoded record row: an ordered mapping from column name to value, the
image of a Python `dict` of fields. -/
abbrev Row := List (String × PyV)

/-- One element of the `records` list of an upload envelope: a `fields`
mapping plus an optional `id` (absent until injected). -/
structure RecordEntry where
  fields : Row
  id : Option String := none
deriving DecidableEq, Repr

/-- The `{"records": [{"fields": ...}, ...], "typecast": ...}` wire envelope
built by `utils.construct_record`. -/
structure Envelope where
  records : List RecordEntry
  typecast : Bool
deriving DecidableEq, Repr

/-- Model of `utils.construct_record(chunk, typecast)`:
`{"records": [{"fields": i} for i in chunk], "typecast": typecast}`. -/
def construct_record (chunk : List Row) (typecast : Bool) : Envelope :=
  { records := chunk.map (fun i => { fields := i }), typecast := typecast }

/-- The server-imposed batch upload limit: `utils.parcels` uses a default
chunk size of 10, the only size the library ever uses. -/
def BATCH_LIMIT : Nat := 10

/-- Model of `utils.parcels(iterable)`: meters out a list in contiguous slices of at
most `BATCH_LIMIT` elements (`iterable[i : i + 10]` for
`i in range(0, len(iterable), 10)`). -/
def parcels {α : Type} (iterable : List α) : List (List α) :=
  if iterable.isEmpty then []
  else iterable.take BATCH_LIMIT :: parcels (iterable.drop BATCH_LIMIT)
termination_by iterable.length
decreasing_by
  cases iterable with
  | nil => simp at *
  | cons x rest => simp [BATCH_LIMIT]; omega

/-- The chunk-length profile of `parcels` as a function of input length
alone (used to state the 10/10/5 chunking property). -/
def chunkSizes (n : Nat) : List Nat :=
  if n = 0 then [] else min BATCH_LIMIT n :: chunkSizes (n - BATCH_LIMIT)
termination_by n
decreasing_by simp [BATCH_LIMIT]; omega

/-- Embedding of a scalar into the Python-value type. -/
def Scalar.toPyV : Scalar → PyV
  | .str x => .s x
  | .int n => .i n
  | .bool x => .b x

/-- The lengths of the sequence-valued (list) columns of a dict input. -/
def seqLengths (d : List (String × PyV)) : List Nat :=
  d.filterMap (fun p => match p.2 with | .seq xs => some xs.length | _ => none)

/-- Row `k` of the data frame built from a dict of columns: sequence-valued
columns contribute their `k`-th element, scalar columns are broadcast. -/
def broadcastRow (d : List (String × PyV)) (k : Nat) : Row :=
  d.map (fun p =>
    match p.2 with
    | .seq xs => (p.1, (xs.getD k (.str "")).toPyV)
    | v => (p.1, v))

/-- Model of `pandas.DataFrame(dict)` (dict-of-columns constructor) followed
by `.to_dict("records")`, restricted to the shapes the library feeds it:
`none` models the `ValueError` raised when every column is scalar ("must pass
an index") or when sequence columns have unequal lengths; otherwise the index
length is the common sequence length and scalar columns broadcast to every
row. -/
def pdDataFrame (d : List (String × PyV)) : Option (List Row) :=
  match seqLengths d with
  | [] => none
  | n :: rest =>
    if rest.all (fun m => m = n) then some ((List.range n).map (broadcastRow d))
    else none

/-- A non-sequence (non-list) Python value: a scalar column entry for the
dict-of-columns normalization. -/
def isScalarV : PyV → Bool
  | .seq _ => false
  | _ => true

/-- The two input shapes `utils.convert_upload` accepts: a Python `dict`
(columns to scalar or sequence) or a `pandas.DataFrame`, the latter already
an ordered sequence of rows. -/
inductive Upload where
  | dict : List (String × PyV) → Upload
  | frame : List Row → Upload

/-- Model of `utils.convert_upload(data, typecast)`: a dict is first passed to
`pd.DataFrame`; on `ValueError` it is treated as a single row
(`[construct_record([data], typecast)]`); a successful frame (and any
DataFrame input) is chunked by `parcels` and each chunk wrapped by
`construct_record`. -/
def convert_upload (data : Upload) (typecast : Bool := true) : List Envelope :=
  match data with
  | .dict d =>
    match pdDataFrame d with
    | some rows => (parcels rows).map (fun c => construct_record c typecast)
    | none => [construct_record [d] typecast]
  | .frame rows => (parcels rows).map (fun c => construct_record c typecast)

/-- Failure modes of `utils.inject_record_id`: a `ValueError` from
`check_key`, or Python's `IndexError` on a record index beyond bounds. -/
inductive InjectErr where
  | keyErr : KeyErr → InjectErr
  | indexOutOfRange
deriving DecidableEq, Repr

/-- Model of `utils.inject_record_id(data, record_id, index)`: validates `record_id`
with `check_key(·, "Record ID")` before touching `data`, then sets
`data["records"][index]["id"] = record_id`.  The in-place mutation is modelled
by returning the updated envelope; an error means `data` is left unmodified. -/
def inject_record_id (data : Envelope) (record_id : String) (index : Nat := 0) :
    Except InjectErr Envelope :=
  match check_key (.s record_id) "Record ID" with
  | .error e => .error (.keyErr e)
  | .ok _ =>
    match data.records[index]? with
    | none => .error .indexOutOfRange
    | some r =>
      .ok { data with records := data.records.set index { r with id := some record_id } }

/-- Python truthiness of an optional string: `None` and `""` are falsy. -/
def truthy : Option String → Bool
  | none => false
  | some r => r != ""

namespace AirtableAPI

/-- Model of `AirtableAPI.construct_url(base_id, table_id, record_id)`: validates
`base_id` as a Base ID; when `record_id` is truthy (Python `if record_id:`)
it is validated as a Record ID and appended; `table_id` is used verbatim.
`base_url` abstracts the instance's `https://api.airtable.com/<version>/`
root. -/
def construct_url (base_url base_id table_id : String)
    (record_id : Option String := none) : Except KeyErr String :=
  match check_key (.s base_id) "Base ID" with
  | .error e => .error e
  | .ok _ =>
    if truthy record_id then
      let r := record_id.getD ""
      match check_key (.s r) "Record ID" with
      | .error e => .error e
      | .ok _ => .ok (base_url ++ base_id ++ "/" ++ table_id ++ "/" ++ r)
    else .ok (base_url ++ base_id ++ "/" ++ table_id)

/-- An HTTP request as dispatched to the transport seam (`get_response`):
the verb and the final URL. -/
structure Request where
  verb : String
  url : String
deriving DecidableEq, Repr

/-- Model of `AirtableAPI.delete(url, record_id)`: when `record_id is not None` (an
identity test, not truthiness) it is appended to the URL, inserting `/` only
when the URL does not already end with one; no validation of `record_id` ever
runs, so the `Except` never carries a `KeyErr`. -/
def delete (url : String) (record_id : Option String := none) :
    Except KeyErr Request :=
  let url2 :=
    match record_id with
    | some rid => if endswith url "/" then url ++ rid else url ++ "/" ++ rid
    | none => url
  .ok { verb := "delete", url := url2 }

/-- One page of a list response: its `records` and the optional continuation
`offset` cursor. -/
structure Page (R : Type) where
  records : List R
  offset : Option String
deriving DecidableEq, Repr

/-- Model of `AirtableAPI.get(url, ...)`: the pagination loop, with the transport
modelled as the sequence of pages its successive `fetch` calls return.  Each
iteration reads the page's `offset`, extends the accumulator with the page's
`records`, and breaks exactly when the offset is `None`.  Returns the
accumulated records together with the number of fetch calls made. -/
def get {R : Type} (pages : List (Page R)) : List R × Nat :=
  match pages with
  | [] => ([], 0)
  | p :: rest =>
    match p.offset with
    | none => (p.records, 1)
    | some _ =>
      let r := get rest
      (p.records ++ r.1, r.2 + 1)

end AirtableAPI

namespace query

/-- Modelled from the spec: `AirtablePy/query.py` is absent from the visible
source (only its tests import it), so the Query/Formula Builder is embedded
from §4.3 of the specification.  A character that may appear in the bare
identifier of a formula call. -/
def isIdentChar (c : Char) : Bool :=
  c.isAlpha || c.isDigit || c == '_'

/-- Modelled from the spec: the recognized formula-call pattern of
`classifyValue`/`classifyColumn` — a non-empty bare identifier immediately
followed by an opening parenthesis, the token ending with a closing
parenthesis (e.g. `NOW()`, `DATETIME_PARSE(a, b)`). -/
def formulaCall (s : String) : Bool :=
  let cs := s.toList
  let name := cs.takeWhile isIdentChar
  let rest := cs.dropWhile isIdentChar
  !name.isEmpty &&
    (match rest with | '(' :: _ => true | _ => false) &&
    (match cs.getLast? with | some ')' => true | _ => false)

/-- Modelled from the spec: `query.is_formula` (`classifyValue`) returns the
token unchanged when it matches the formula-call pattern, otherwise wraps it
in single quotes as a literal. -/
def is_formula (value : String) : String :=
  if formulaCall value then value else "'" ++ value ++ "'"

/-- Modelled from the spec: `query.is_column` (`classifyColumn`) returns the
token unchanged when it matches the formula-call pattern, otherwise wraps it
in curly braces as a column reference. -/
def is_column (value : String) : String :=
  if formulaCall value then value else "\x7b" ++ value ++ "\x7d"

/-- The failure modes of `query.date_query` named by the specification
(`MissingColumn`, `MissingBound`); Python raises `ValueError` for both. -/
inductive QueryErr where
  | missingColumn
  | missingBound
deriving DecidableEq, Repr

/-- Modelled from the spec: the single-bound start clause
`OR(IS_AFTER({col}, start), IS_SAME({col}, start, 'unit'))`, the bound passed
through `is_formula`. -/
def startClause (col s comp : String) : String :=
  "OR(IS_AFTER(" ++ col ++ ", " ++ is_formula s ++ "), IS_SAME(" ++ col ++ ", " ++
    is_formula s ++ ", '" ++ comp ++ "'))"

/-- Modelled from the spec: the single-bound end clause
`OR(IS_BEFORE({col}, end), IS_SAME({col}, end, 'unit'))`, the bound passed
through `is_formula`. -/
def endClause (col e comp : String) : String :=
  "OR(IS_BEFORE(" ++ col ++ ", " ++ is_formula e ++ "), IS_SAME(" ++ col ++ ", " ++
    is_formula e ++ ", '" ++ comp ++ "'))"

/-- Modelled from the spec: `query.date_query(column, start, end, comparison)`
(`buildDateRangeFilter`, §4.3).  Fails with `MissingColumn` when the column is
absent or empty; otherwise fails with `MissingBound` when both bounds are
absent; otherwise returns the single-bound clause, or the `AND` of the start
clause then the end clause when both bounds are given. -/
def date_query (column : Option String) (start stop : Option String)
    (comparison : String := "day") : Except QueryErr String :=
  match column with
  | none => .error .missingColumn
  | some c =>
    if c = "" then .error .missingColumn
    else
      let col := is_column c
      match start, stop with
      | none, none => .error .missingBound
      | some s, none => .ok (startClause col s comparison)
      | none, some e => .ok (endClause col e comparison)
      | some s, some e =>
        .ok ("AND(" ++ startClause col s comparison ++ ", " ++
          endClause col e comparison ++ ")")

end query

lemma parcels_nil {α : Type} : parcels ([] : List α) = [] := by
  simp [parcels]

lemma parcels_cons {α : Type} (l : List α) (h : l ≠ []) :
    parcels l = l.take BATCH_LIMIT :: parcels (l.drop BATCH_LIMIT) := by
  rw [parcels]
  simp [h]

lemma parcels_join {α : Type} (l : List α) : (parcels l).flatten = l := by
  by_cases h : l = []
  · subst h; simp [parcels_nil]
  · rw [parcels_cons l h]
    have ih := parcels_join (l.drop BATCH_LIMIT)
    simp [List.flatten, ih]
termination_by l.length
decreasing_by
  have h0 : 0 < l.length := List.length_pos.mpr h
  simp [BATCH_LIMIT]
  omega

lemma parcels_chunk_le {α : Type} (l : List α) :
    ∀ c ∈ parcels l, c.length ≤ BATCH_LIMIT := by
  by_cases h : l = []
  · subst h; simp [parcels_nil]
  · rw [parcels_cons l h]
    intro c hc
    rcases List.mem_cons.mp hc with h1 | h2
    · subst h1; simp [List.length_take]
    · exact parcels_chunk_le (l.drop BATCH_LIMIT) c h2
termination_by l.length
decreasing_by
  have h0 : 0 < l.length := List.length_pos.mpr h
  simp [BATCH_LIMIT]
  omega

lemma parcels_sizes {α : Type} (l : List α) :
    (parcels l).map List.length = chunkSizes l.length := by
  by_cases h : l = []
  · subst h; simp [parcels_nil, chunkSizes]
  · have h0 : 0 < l.length := List.length_pos.mpr h
    have hne : l.length ≠ 0 := by omega
    have ih := parcels_sizes (l.drop BATCH_LIMIT)
    rw [parcels_cons l h, chunkSizes]
    simp [hne, List.length_take, List.length_drop, ih]
termination_by l.length
decreasing_by
  simp [BATCH_LIMIT]
  omega

lemma chunkSizes_25 : chunkSizes 25 = [10, 10, 5] := by
  rw [chunkSizes, chunkSizes, chunkSizes, chunkSizes]
  norm_num [BATCH_LIMIT, Nat.min_def]

/-- Claim C3: `check_key` returns normally exactly on strings of 17
characters beginning with the recognized kind's prefix (`key` for "API Key",
`app` for "Base ID", `rec` for "Record ID"); every other input — a
non-string, a wrong length, a wrong beginning, or an unrecognized kind —
fails with a `ValueError` (`InvalidIdentifier`); the function is pure, so it
has no side effects. -/
theorem check_key_valid_iff :
    (∀ (v : PyV) (kt : String),
      check_key v kt = .ok () ↔
        ∃ k pfx, v = .s k ∧ VALID_KEY_PFX kt = some pfx ∧
          k.length = 17 ∧ startswith k pfx = true) ∧
    VALID_KEY_PFX "API Key" = some "key" ∧
    VALID_KEY_PFX "Base ID" = some "app" ∧
    VALID_KEY_PFX "Record ID" = some "rec" ∧
    (∀ kt, kt ≠ "API Key" → kt ≠ "Base ID" → kt ≠ "Record ID" →
      VALID_KEY_PFX kt = none) := by
  refine ⟨?_, by decide, by decide, by decide, ?_⟩
  · intro v kt
    cases v with
    | s k =>
      by_cases hl : k.length = 17
      · cases hpfx : VALID_KEY_PFX kt with
        | none => simp [check_key, hl, hpfx]
        | some pfx =>
          by_cases hs : startswith k pfx <;>
            simp [check_key, hl, hpfx, hs]
      · simp [check_key, hl]
    | i n => simp [check_key]
    | b x => simp [check_key]
    | seq xs => simp [check_key]
  · intro kt h1 h2 h3
    simp [VALID_KEY_PFX, h1, h2, h3]

/-- Witness for Claim C3 at concrete inputs: a well-formed Record ID
validates, and an unrecognized kind has no prefix entry. -/
theorem check_key_valid_iff_witness :
    check_key (.s "rec00000000000000") "Record ID" = .ok () ∧
    VALID_KEY_PFX "Test" = none :=
  ⟨(check_key_valid_iff.1 (.s "rec00000000000000") "Record ID").mpr
      ⟨"rec00000000000000", "rec", rfl, by decide, by decide, by decide⟩,
    check_key_valid_iff.2.2.2.2 "Test" (by decide) (by decide) (by decide)⟩

/-- Claim C2: `convert_upload` on a tabular input partitions the rows into
contiguous chunks of at most `BATCH_LIMIT` = 10 rows, preserves the original
row order across chunks (their concatenation is the input), builds exactly
one `{records: [{fields: row} for row in chunk], typecast: typecast}`
envelope per chunk, and a 25-row input yields exactly 3 envelopes of sizes
10, 10 and 5. -/
theorem convert_upload_chunking (rows : List Row) (tc : Bool) :
    convert_upload (.frame rows) tc =
      (parcels rows).map (fun c => construct_record c tc) ∧
    (parcels rows).flatten = rows ∧
    (∀ c ∈ parcels rows, c.length ≤ BATCH_LIMIT) ∧
    (∀ c ∈ parcels rows,
      (construct_record c tc).records.map RecordEntry.fields = c ∧
      (construct_record c tc).typecast = tc) ∧
    (rows.length = 25 →
      (convert_upload (.frame rows) tc).map (fun e => e.records.length) =
        [10, 10, 5]) := by
  refine ⟨rfl, parcels_join rows, parcels_chunk_le rows, ?_, ?_⟩
  · intro c _
    constructor
    · have hid : (RecordEntry.fields ∘ fun i => ({ fields := i, id := none } : RecordEntry)) =
          id := rfl
      simp [construct_record, hid]
    · rfl
  · intro h25
    have : (convert_upload (.frame rows) tc).map (fun e => e.records.length) =
        (parcels rows).map List.length := by
      simp [convert_upload, construct_record]
    rw [this, parcels_sizes, h25, chunkSizes_25]

/-- Witness for Claim C2: a concrete 25-row input produces envelopes of
sizes 10, 10, 5. -/
theorem convert_upload_chunking_witness :
    (convert_upload (.frame (List.replicate 25 [("A", PyV.i 1)])) true).map
      (fun e => e.records.length) = [10, 10, 5] :=
  (convert_upload_chunking (List.replicate 25 [("A", PyV.i 1)]) true).2.2.2.2
    (by decide)

lemma get_cons_none {R : Type} (p : AirtableAPI.Page R)
    (rest : List (AirtableAPI.Page R)) (h : p.offset = none) :
    AirtableAPI.get (p :: rest) = (p.records, 1) := by
  simp [AirtableAPI.get, h]

lemma get_cons_some {R : Type} (p : AirtableAPI.Page R)
    (rest : List (AirtableAPI.Page R)) (c : String) (h : p.offset = some c) :
    AirtableAPI.get (p :: rest) =
      (p.records ++ (AirtableAPI.get rest).1, (AirtableAPI.get rest).2 + 1) := by
  simp [AirtableAPI.get, h]

/-- Claim C1: the pagination loop of `AirtableAPI.get` fetches pages
sequentially; for any transport page sequence whose pages before the first
cursorless page all carry an `offset` (possibly with empty `records`), the
loop accumulates the records of those pages and of the terminating page in
arrival order and makes exactly one fetch per page up to and including the
first page whose `offset` is absent — pages after it are never fetched. -/
theorem get_paginates {R : Type} (pre : List (AirtableAPI.Page R))
    (lastPage : AirtableAPI.Page R) (rest : List (AirtableAPI.Page R))
    (hpre : ∀ p ∈ pre, p.offset ≠ none) (hlast : lastPage.offset = none) :
    AirtableAPI.get (pre ++ lastPage :: rest) =
      ((pre.map AirtableAPI.Page.records).flatten ++ lastPage.records,
        pre.length + 1) := by
  induction pre with
  | nil =>
    rw [List.nil_append, get_cons_none lastPage rest hlast]
    simp
  | cons p ps ih =>
    have hp : p.offset ≠ none := hpre p (List.mem_cons_self p ps)
    cases hpo : p.offset with
    | none => exact absurd hpo hp
    | some c =>
      have ih2 := ih (fun q hq => hpre q (List.mem_cons_of_mem p hq))
      rw [List.cons_append, get_cons_some p _ c hpo, ih2]
      simp [List.append_assoc]

/-- Witness for Claim C1: the spec's mock transport — page1
`{records:[r1], offset:"c1"}` then page2 `{records:[r2]}` with no offset —
yields `[r1, r2]` after exactly 2 fetches; and an empty-records page that
carries a cursor does not terminate the loop. -/
theorem get_paginates_witness :
    AirtableAPI.get [⟨[PyV.i 1], some "c1"⟩, ⟨[PyV.i 2], none⟩] =
      ([PyV.i 1, PyV.i 2], 2) ∧
    AirtableAPI.get [⟨([] : List PyV), some "c1"⟩, ⟨[PyV.i 2], none⟩] =
      ([PyV.i 2], 2) := by
  constructor
  · have h := get_paginates [⟨[PyV.i 1], some "c1"⟩] ⟨[PyV.i 2], none⟩ []
      (by decide) rfl
    simpa using h
  · have h := get_paginates [⟨([] : List PyV), some "c1"⟩] ⟨[PyV.i 2], none⟩ []
      (by decide) rfl
    simpa using h

/-- Claim C4: `inject_record_id` on an envelope and an index within its
record count: with a well-formed record ID (`rec` followed by 14 characters,
i.e. 17 characters starting with `rec`) it sets `records[index].id` to that
ID, leaves every record's `fields` mapping untouched, leaves every other
record untouched, and preserves `typecast`; with a malformed record ID the
validation fails with `ValueError` (`InvalidIdentifier`) before any mutation,
so the envelope is left unmodified. -/
theorem inject_record_id_spec (env : Envelope) (rid : String) (idx : Nat)
    (hidx : idx < env.records.length) :
    ((rid.length = 17 ∧ startswith rid "rec" = true) →
      ∃ env', inject_record_id env rid idx = .ok env' ∧
        env'.typecast = env.typecast ∧
        env'.records.map RecordEntry.fields = env.records.map RecordEntry.fields ∧
        env'.records[idx]?.map RecordEntry.id = some (some rid) ∧
        (∀ j, j ≠ idx → env'.records[j]? = env.records[j]?)) ∧
    (¬(rid.length = 17 ∧ startswith rid "rec" = true) →
      ∃ e, inject_record_id env rid idx = .error (.keyErr e)) := by
  constructor
  · rintro ⟨h17, hpre⟩
    have hok : check_key (.s rid) "Record ID" = .ok () := by
      simp [check_key, h17, VALID_KEY_PFX, hpre]
    have hget : env.records[idx]? = some env.records[idx] :=
      List.getElem?_eq_getElem hidx
    refine ⟨⟨env.records.set idx
        { fields := env.records[idx].fields, id := some rid }, env.typecast⟩,
      ?_, rfl, ?_, ?_, ?_⟩
    · simp [inject_record_id, hok, hget]
    · show (env.records.set idx
          { fields := env.records[idx].fields, id := some rid }).map
          RecordEntry.fields = env.records.map RecordEntry.fields
      apply List.ext_getElem?
      intro j
      by_cases hj : j = idx
      · subst hj
        rw [List.getElem?_map, List.getElem?_map,
          List.getElem?_set_self hidx, hget]
        rfl
      · rw [List.getElem?_map, List.getElem?_map,
          List.getElem?_set_ne (fun h => hj h.symm)]
    · show (env.records.set idx
          { fields := env.records[idx].fields, id := some rid })[idx]?.map
          RecordEntry.id = some (some rid)
      rw [List.getElem?_set_self hidx]
      rfl
    · intro j hj
      show (env.records.set idx
          { fields := env.records[idx].fields, id := some rid })[j]? =
          env.records[j]?
      exact List.getElem?_set_ne (fun h => hj h.symm)
  · intro hbad
    by_cases h17 : rid.length = 17
    · have hpre : startswith rid "rec" = false := by
        cases hB : startswith rid "rec" with
        | false => rfl
        | true => exact absurd ⟨h17, hB⟩ hbad
      exact ⟨.badPrefix,
        by simp [inject_record_id, check_key, h17, VALID_KEY_PFX, hpre]⟩
    · exact ⟨.badLength, by simp [inject_record_id, check_key, h17]⟩

/-- Witness for Claim C4: on a one-record envelope, a well-formed
`rec` + 14-character ID is injected at index 0 with fields untouched, and a
malformed ID fails with a validation error. -/
theorem inject_record_id_spec_witness :
    (∃ env', inject_record_id ⟨[⟨[("A", PyV.i 1)], none⟩], true⟩
        "rec12345678901234" 0 = .ok env' ∧
      env'.typecast = (⟨[⟨[("A", PyV.i 1)], none⟩], true⟩ : Envelope).typecast ∧
      env'.records.map RecordEntry.fields =
        (⟨[⟨[("A", PyV.i 1)], none⟩], true⟩ : Envelope).records.map
          RecordEntry.fields ∧
      env'.records[0]?.map RecordEntry.id = some (some "rec12345678901234") ∧
      (∀ j, j ≠ 0 → env'.records[j]? =
        (⟨[⟨[("A", PyV.i 1)], none⟩], true⟩ : Envelope).records[j]?)) ∧
    (∃ e, inject_record_id ⟨[⟨[("A", PyV.i 1)], none⟩], true⟩ "bogus" 0 =
      .error (.keyErr e)) :=
  ⟨(inject_record_id_spec ⟨[⟨[("A", PyV.i 1)], none⟩], true⟩
      "rec12345678901234" 0 (by decide)).1 ⟨by decide, by decide⟩,
    (inject_record_id_spec ⟨[⟨[("A", PyV.i 1)], none⟩], true⟩
      "bogus" 0 (by decide)).2 (by decide)⟩

/-- Claim C5 (spec-modelled, `query.py` absent from the visible source):
`date_query` with a non-empty column and both bounds returns
`AND(<start-clause>, <end-clause>)` with the start clause first, where the
start clause is `OR(IS_AFTER({col}, start), IS_SAME({col}, start, 'unit'))`
and the end clause is `OR(IS_BEFORE({col}, end), IS_SAME({col}, end,
'unit'))`; with only one bound it returns the corresponding single `OR`
clause; bounds pass through `is_formula` (`classifyValue`), so a token
matching the formula-call pattern is inserted unchanged while any other
token is single-quoted. -/
theorem date_query_spec (c s e u : String) (hc : c ≠ "") :
    (query.date_query (some c) (some s) (some e) u =
      .ok ("AND(" ++
        ("OR(IS_AFTER(" ++ query.is_column c ++ ", " ++
          query.is_formula s ++ "), IS_SAME(" ++ query.is_column c ++ ", " ++
          query.is_formula s ++ ", '" ++ u ++ "'))") ++ ", " ++
        ("OR(IS_BEFORE(" ++ query.is_column c ++ ", " ++
          query.is_formula e ++ "), IS_SAME(" ++ query.is_column c ++ ", " ++
          query.is_formula e ++ ", '" ++ u ++ "'))") ++ ")")) ∧
    (query.date_query (some c) (some s) none u =
      .ok ("OR(IS_AFTER(" ++ query.is_column c ++ ", " ++
        query.is_formula s ++ "), IS_SAME(" ++ query.is_column c ++ ", " ++
        query.is_formula s ++ ", '" ++ u ++ "'))")) ∧
    (query.date_query (some c) none (some e) u =
      .ok ("OR(IS_BEFORE(" ++ query.is_column c ++ ", " ++
        query.is_formula e ++ "), IS_SAME(" ++ query.is_column c ++ ", " ++
        query.is_formula e ++ ", '" ++ u ++ "'))")) ∧
    (∀ v, query.formulaCall v = true → query.is_formula v = v) ∧
    (∀ v, query.formulaCall v = false →
      query.is_formula v = "'" ++ v ++ "'") := by
  refine ⟨?_, ?_, ?_, ?_, ?_⟩
  · simp [query.date_query, hc, query.startClause, query.endClause,
      String.append_assoc]
  · simp [query.date_query, hc, query.startClause, String.append_assoc]
  · simp [query.date_query, hc, query.endClause, String.append_assoc]
  · intro v hv; simp [query.is_formula, hv]
  · intro v hv; simp [query.is_formula, hv]

/-- Witness for Claim C5: the test vector — both bounds on column `date`
with unit `day` — produces exactly the expected filter string, and `NOW()`
is inserted unquoted while a literal date is quoted. -/
theorem date_query_spec_witness :
    query.date_query (some "date") (some "20220814") (some "20220817") "day" =
      .ok ("AND(OR(IS_AFTER({date}, '20220814'), " ++
        "IS_SAME({date}, '20220814', 'day')), " ++
        "OR(IS_BEFORE({date}, '20220817'), " ++
        "IS_SAME({date}, '20220817', 'day')))") ∧
    query.date_query (some "date") (some "NOW()") none "day" =
      .ok "OR(IS_AFTER({date}, NOW()), IS_SAME({date}, NOW(), 'day'))" := by
  constructor
  · have h := (date_query_spec "date" "20220814" "20220817" "day"
      (by decide)).1
    rw [h]; decide
  · have h := (date_query_spec "date" "NOW()" "x" "day" (by decide)).2.1
    rw [h]; decide

/-- Claim C6 (spec-modelled, `query.py` absent from the visible source):
`date_query` fails with `MissingColumn` whenever the column is absent or
empty; with a present non-empty column and both bounds absent it fails with
`MissingBound`; whenever both bounds are absent the call fails (with one of
those two errors) and no filter string is produced. -/
theorem date_query_missing (column : Option String)
    (start stop : Option String) (u : String) :
    ((column = none ∨ column = some "") →
      query.date_query column start stop u = .error .missingColumn) ∧
    ((∃ c, column = some c ∧ c ≠ "") → start = none → stop = none →
      query.date_query column start stop u = .error .missingBound) ∧
    (start = none → stop = none →
      ∃ err, query.date_query column start stop u = .error err) := by
  refine ⟨?_, ?_, ?_⟩
  · rintro (h | h) <;> subst h <;> simp [query.date_query]
  · rintro ⟨c, hcol, hc⟩ hs ht
    subst hcol; subst hs; subst ht
    simp [query.date_query, hc]
  · intro hs ht
    subst hs; subst ht
    cases column with
    | none => exact ⟨.missingColumn, by simp [query.date_query]⟩
    | some c =>
      by_cases hc : c = ""
      · subst hc; exact ⟨.missingColumn, by simp [query.date_query]⟩
      · exact ⟨.missingBound, by simp [query.date_query, hc]⟩

/-- Witness for Claim C6: the two failing test vectors — absent column, and
present column with both bounds absent. -/
theorem date_query_missing_witness :
    query.date_query none (some "20220814") (some "20220817") "day" =
      .error .missingColumn ∧
    query.date_query (some "column") none none "day" =
      .error .missingBound :=
  ⟨(date_query_missing none (some "20220814") (some "20220817") "day").1
      (Or.inl rfl),
    (date_query_missing (some "column") none none "day").2.1
      ⟨"column", rfl, by decide⟩ rfl rfl⟩

/-- Claim C7: `construct_url` with a valid Base ID (`app` + 14 characters)
returns `<apiRoot>/<baseID>/<tableID>` without a record ID and
`<apiRoot>/<baseID>/<tableID>/<recordID>` with a (non-empty) record ID,
validating the base as a Base ID and the given record ID as a Record ID —
failing with a `ValueError` (`InvalidIdentifier`) when either is malformed —
while the table ID is used verbatim with no validation (the theorem holds
for every `table` string). -/
theorem construct_url_spec (root base table : String) :
    ((base.length = 17 ∧ startswith base "app" = true) →
      AirtableAPI.construct_url root base table none =
        .ok (root ++ base ++ "/" ++ table)) ∧
    ((base.length = 17 ∧ startswith base "app" = true) →
      ∀ r, r ≠ "" → r.length = 17 → startswith r "rec" = true →
        AirtableAPI.construct_url root base table (some r) =
          .ok (root ++ base ++ "/" ++ table ++ "/" ++ r)) ∧
    ((base.length = 17 ∧ startswith base "app" = true) →
      ∀ r, r ≠ "" → ¬(r.length = 17 ∧ startswith r "rec" = true) →
        ∃ e, AirtableAPI.construct_url root base table (some r) = .error e) ∧
    (¬(base.length = 17 ∧ startswith base "app" = true) →
      ∀ rid, ∃ e, AirtableAPI.construct_url root base table rid =
        .error e) := by
  refine ⟨?_, ?_, ?_, ?_⟩
  · rintro ⟨h17, hpre⟩
    simp [AirtableAPI.construct_url, check_key, h17, VALID_KEY_PFX, hpre,
      truthy]
  · rintro ⟨h17, hpre⟩ r hr hr17 hrpre
    simp [AirtableAPI.construct_url, check_key, h17, VALID_KEY_PFX, hpre,
      truthy, hr, hr17, hrpre]
  · rintro ⟨h17, hpre⟩ r hr hbad
    by_cases hr17 : r.length = 17
    · have hrpre : startswith r "rec" = false := by
        cases hB : startswith r "rec" with
        | false => rfl
        | true => exact absurd ⟨hr17, hB⟩ hbad
      exact ⟨.badPrefix, by simp [AirtableAPI.construct_url, check_key, h17,
        VALID_KEY_PFX, hpre, truthy, hr, hr17, hrpre]⟩
    · exact ⟨.badLength, by simp [AirtableAPI.construct_url, check_key, h17,
        VALID_KEY_PFX, hpre, truthy, hr, hr17]⟩
  · intro hbad rid
    by_cases h17 : base.length = 17
    · have hpre : startswith base "app" = false := by
        cases hB : startswith base "app" with
        | false => rfl
        | true => exact absurd ⟨h17, hB⟩ hbad
      exact ⟨.badPrefix,
        by simp [AirtableAPI.construct_url, check_key, h17, VALID_KEY_PFX,
          hpre]⟩
    · exact ⟨.badLength,
        by simp [AirtableAPI.construct_url, check_key, h17]⟩

/-- Witness for Claim C7: concrete valid base and record IDs produce the two
URL shapes of the spec's test vector. -/
theorem construct_url_spec_witness :
    AirtableAPI.construct_url "https://api.airtable.com/v0/"
      "app12345678901234" "Table" none =
      .ok "https://api.airtable.com/v0/app12345678901234/Table" ∧
    AirtableAPI.construct_url "https://api.airtable.com/v0/"
      "app12345678901234" "Table" (some "rec12345678901234") =
      .ok "https://api.airtable.com/v0/app12345678901234/Table/rec12345678901234" := by
  constructor
  · have h := (construct_url_spec "https://api.airtable.com/v0/"
      "app12345678901234" "Table").1 ⟨by decide, by decide⟩
    rw [h]; decide
  · have h := (construct_url_spec "https://api.airtable.com/v0/"
      "app12345678901234" "Table").2.1 ⟨by decide, by decide⟩
      "rec12345678901234" (by decide) (by decide) (by decide)
    rw [h]; decide

/-- Claim C9: `construct_url` decides record-ID presence by Python
truthiness, so an empty-string `record_id` behaves exactly like an absent
one — no Record ID validation runs (even though `check_key` would reject
`""`) and the returned URL has no trailing record segment. -/
theorem construct_url_empty_record (root base table : String)
    (hb : base.length = 17 ∧ startswith base "app" = true) :
    AirtableAPI.construct_url root base table (some "") =
      AirtableAPI.construct_url root base table none ∧
    AirtableAPI.construct_url root base table (some "") =
      .ok (root ++ base ++ "/" ++ table) ∧
    check_key (.s "") "Record ID" = .error .badLength := by
  obtain ⟨h17, hpre⟩ := hb
  refine ⟨rfl, ?_, by decide⟩
  simp [AirtableAPI.construct_url, check_key, h17, VALID_KEY_PFX, hpre,
    truthy]

/-- Witness for Claim C9: with a concrete valid base, an empty record ID
yields the bare table URL. -/
theorem construct_url_empty_record_witness :
    AirtableAPI.construct_url "https://api.airtable.com/v0/"
      "app12345678901234" "Table" (some "") =
      .ok "https://api.airtable.com/v0/app12345678901234/Table" := by
  have h := (construct_url_empty_record "https://api.airtable.com/v0/"
    "app12345678901234" "Table" ⟨by decide, by decide⟩).2.1
  rw [h]; decide

/-- Claim C10: `AirtableAPI.delete` never validates its `record_id`: every
non-`None` string, well-formed or malformed, is appended to the URL — with a
`/` separator inserted only when the URL does not already end in one — and
the request is dispatched; the call cannot fail with a validation error,
even when `check_key` would reject the ID. -/
theorem delete_no_validation (url rid : String) :
    AirtableAPI.delete url (some rid) =
      .ok ⟨"delete",
        (if endswith url "/" then url ++ rid else url ++ "/" ++ rid)⟩ ∧
    (∀ e, check_key (.s rid) "Record ID" = .error e →
      ∃ req, AirtableAPI.delete url (some rid) = .ok req ∧
        req.url =
          (if endswith url "/" then url ++ rid else url ++ "/" ++ rid)) ∧
    (∀ e : KeyErr, AirtableAPI.delete url (some rid) ≠ .error e) := by
  refine ⟨rfl, ?_, ?_⟩
  · intro e _
    exact ⟨_, rfl, rfl⟩
  · intro e h
    simp [AirtableAPI.delete] at h

/-- Claim C8: `convert_upload` on a dict input that maps some columns to
length-`n` sequences and one column to a single scalar (non-list) value
broadcasts the scalar to every one of the `n` resulting rows — each
resulting record's `fields` contains that scalar under that column — rather
than failing: `pd.DataFrame` accepts the mixed dict, deriving the index from
the sequence columns and broadcasting scalars, so the chunked multi-row path
is taken. -/
theorem convert_upload_broadcast (d : List (String × PyV)) (c : String)
    (v : PyV) (n : Nat) (tc : Bool)
    (hmem : (c, v) ∈ d) (hscalar : isScalarV v = true)
    (hseq : seqLengths d ≠ []) (huni : ∀ m ∈ seqLengths d, m = n) :
    pdDataFrame d = some ((List.range n).map (broadcastRow d)) ∧
    ((List.range n).map (broadcastRow d)).length = n ∧
    (∀ row ∈ (List.range n).map (broadcastRow d), (c, v) ∈ row) ∧
    ((convert_upload (.dict d) tc).map
      (fun env => env.records.map RecordEntry.fields)).flatten =
      (List.range n).map (broadcastRow d) := by
  have hdf : pdDataFrame d = some ((List.range n).map (broadcastRow d)) := by
    cases hsl : seqLengths d with
    | nil => exact absurd hsl hseq
    | cons m rest =>
      have hm : m = n := huni m (by rw [hsl]; exact List.mem_cons_self m rest)
      have hall : rest.all (fun x => x = m) = true := by
        rw [List.all_eq_true]
        intro x hx
        have hx2 : x = n := huni x (by rw [hsl]; exact List.mem_cons_of_mem m hx)
        simp [hx2, hm]
      simp [pdDataFrame, hsl, hall, hm]
      intro x hx
      exact huni x (by rw [hsl]; exact List.mem_cons_of_mem m hx)
  refine ⟨hdf, by simp, ?_, ?_⟩
  · intro row hrow
    obtain ⟨k, _, rfl⟩ := List.mem_map.mp hrow
    refine List.mem_map.mpr ⟨(c, v), hmem, ?_⟩
    cases v with
    | s x => rfl
    | i x => rfl
    | b x => rfl
    | seq xs => simp [isScalarV] at hscalar
  · have hcu : convert_upload (.dict d) tc =
        (parcels ((List.range n).map (broadcastRow d))).map
          (fun ch => construct_record ch tc) := by
      simp [convert_upload, hdf]
    rw [hcu, List.map_map]
    have hcomp : ((fun env => env.records.map RecordEntry.fields) ∘
        fun ch => construct_record ch tc) = id := by
      funext ch
      have hid : (RecordEntry.fields ∘
          fun i => ({ fields := i, id := none } : RecordEntry)) = id := rfl
      simp [construct_record, hid]
    rw [hcomp, List.map_id]
    exact parcels_join _

/-- Witness for Claim C8: a dict with a 3-element sequence column `A` and a
scalar column `B` broadcasts `B`'s value into all 3 rows and is encoded via
the chunked path. -/
theorem convert_upload_broadcast_witness :
    pdDataFrame [("A", PyV.seq [.int 1, .int 2, .int 3]), ("B", PyV.s "x")] =
      some ((List.range 3).map (broadcastRow
        [("A", PyV.seq [.int 1, .int 2, .int 3]), ("B", PyV.s "x")])) ∧
    ((List.range 3).map (broadcastRow
      [("A", PyV.seq [.int 1, .int 2, .int 3]), ("B", PyV.s "x")])).length = 3 ∧
    (∀ row ∈ (List.range 3).map (broadcastRow
        [("A", PyV.seq [.int 1, .int 2, .int 3]), ("B", PyV.s "x")]),
      ("B", PyV.s "x") ∈ row) ∧
    ((convert_upload (.dict [("A", PyV.seq [.int 1, .int 2, .int 3]),
        ("B", PyV.s "x")]) true).map
      (fun env => env.records.map RecordEntry.fields)).flatten =
      (List.range 3).map (broadcastRow
        [("A", PyV.seq [.int 1, .int 2, .int 3]), ("B", PyV.s "x")]) :=
  convert_upload_broadcast
    [("A", PyV.seq [.int 1, .int 2, .int 3]), ("B", PyV.s "x")]
    "B" (PyV.s "x") 3 true (by decide) (by decide) (by decide) (by decide)

/-- Witness for Claim C10: a malformed record ID — one `check_key` rejects —
is still appended and dispatched, for a URL with and without a trailing
slash. -/
theorem delete_no_validation_witness :
    (∃ req, AirtableAPI.delete "https://x/Table" (some "bogus") = .ok req ∧
      req.url = "https://x/Table/bogus") ∧
    (∃ req, AirtableAPI.delete "https://x/Table/" (some "bogus") = .ok req ∧
      req.url = "https://x/Table/bogus") := by
  constructor
  · obtain ⟨req, h1, h2⟩ := (delete_no_validation "https://x/Table"
      "bogus").2.1 .badLength (by decide)
    exact ⟨req, h1, by rw [h2]; decide⟩
  · obtain ⟨req, h1, h2⟩ := (delete_no_validation "https://x/Table/"
      "bogus").2.1 .badLength (by decide)
    exact ⟨req, h1, by rw [h2]; decide⟩
